import Mathlib

/-!
Verification development for the TaskForce geospatial utilities.

The definitions below are shallow embeddings of the JavaScript functions in
frontend/src/utils/milsymbols.js (coordinate codec and geometry measurement)
and of the sector-classification logic in the LineOfSight raytrace component.
JavaScript numbers are embedded as rationals where only arithmetic and
comparisons occur, and as real numbers where trigonometric functions occur.
-/

open Real

/-! ## Coordinate codec (rational embedding) -/

/-- Embeds getUTMZone: zone = floor((lon + 180) / 6) + 1. -/
def getUTMZone (lon : ℚ) : ℤ :=
  ⌊(lon + 180) / 6⌋ + 1

/-- The fixed 20-letter band alphabet from getUTMZoneLetter
(the JavaScript string constant, I and O omitted). -/
def utmZoneLetters : List Char :=
  ['C', 'D', 'E', 'F', 'G', 'H', 'J', 'K', 'L', 'M',
   'N', 'P', 'Q', 'R', 'S', 'T', 'U', 'V', 'W', 'X']

/-- Embeds getUTMZoneLetter.  A JavaScript out-of-bounds (or negative) array
index yields undefined, embedded here as none. -/
def getUTMZoneLetter (lat : ℚ) : Option Char :=
  if lat < -80 then some 'A'
  else if lat > 84 then some 'Z'
  else
    let idx : ℤ := ⌊(lat + 80) / 8⌋
    if idx < 0 then none else utmZoneLetters.get? idx.toNat

/-- Modelled from the spec: the forward conversion of the external mgrs
library used by latLonToMGRS, which is not part of this repository.  Only its
failure condition is relevant to the theorems below: per the spec it fails
(throws) exactly for latitudes outside the supported band of about 80 S to
84 N.  On success it yields the raw grid string (zone band, square id, then
2 times precision digits); the payload content is not used by any theorem. -/
def mgrsForward (lon lat : ℚ) (precision : ℕ) : Option String :=
  if lat < -80 ∨ 84 < lat then none
  else some (String.mk ('3' :: '5' :: 'V' :: 'M' :: 'G' ::
    List.replicate (2 * precision) '7'))

/-- Embeds latLonToMGRS, parameterised by the forward conversion of the
external mgrs library (the function it imports).  The try/catch around the
library call is embedded as a match on the Option result: the catch branch
returns the string sentinel Invalid. -/
def latLonToMGRS (forward : ℚ → ℚ → ℕ → Option String)
    (lat lon : ℚ) (precision : ℕ) (formatted : Bool) : String :=
  match forward lon lat precision with
  | none => "Invalid"
  | some raw =>
    if formatted = false ∨ raw.isEmpty = true ∨ raw.length < 5 then raw
    else
      let gzd := (raw.toList.take 3).asString
      let sq := ((raw.toList.drop 3).take 2).asString
      let coords := raw.toList.drop 5
      let half := coords.length / 2
      let easting := (coords.take half).asString
      let northing := (coords.drop half).asString
      gzd ++ " " ++ sq ++ " " ++ easting ++ " " ++ northing

/-! ## Claims about the coordinate codec -/

/-- C7: the planar zone number equals floor((lon + 180) / 6) + 1 for every
longitude, and in particular longitude -177 yields zone 1 and longitude 3
yields zone 31. -/
theorem getUTMZone_formula_and_examples :
    (∀ lon : ℚ, getUTMZone lon = ⌊(lon + 180) / 6⌋ + 1) ∧
    getUTMZone (-177) = 1 ∧ getUTMZone 3 = 31 := by
  refine ⟨fun _ => rfl, ?_, ?_⟩
  · show ⌊((-177 : ℚ) + 180) / 6⌋ + 1 = 1
    have h : ⌊((-177 : ℚ) + 180) / 6⌋ = 0 := by
      rw [Int.floor_eq_iff]
      constructor <;> norm_num
    rw [h]
    decide
  · show ⌊((3 : ℚ) + 180) / 6⌋ + 1 = 31
    have h : ⌊((3 : ℚ) + 180) / 6⌋ = 30 := by
      rw [Int.floor_eq_iff]
      constructor <;> norm_num
    rw [h]
    decide

/-- C3 (code evaluated at the failing input): at latitude 80, which lies in
the claimed supported band -80 to 84, the band-table index
floor((80 + 80) / 8) = 20 falls outside the 20-letter alphabet and the lookup
yields no letter (JavaScript undefined), contradicting the claim that the
lookup never falls outside the alphabet on that band. -/
theorem getUTMZoneLetter_at_80 : getUTMZoneLetter 80 = none := by
  have h : ⌊((80 : ℚ) + 80) / 8⌋ = 20 := by
    rw [Int.floor_eq_iff]
    constructor <;> norm_num
  unfold getUTMZoneLetter
  rw [if_neg (by norm_num), if_neg (by norm_num)]
  simp only [h]
  decide

/-- C2 (counterexample): at latitude 89 (outside the supported band, so the
library forward conversion fails) latLonToMGRS returns the literal string
Invalid, the silent magic string the claim says is never returned. -/
theorem latLonToMGRS_returns_invalid_at_89 :
    latLonToMGRS mgrsForward 89 0 5 true = "Invalid" := by decide

/-- C2 (amended): whenever the underlying forward conversion fails,
latLonToMGRS catches the failure and returns the string sentinel Invalid;
there is no typed error result. -/
theorem latLonToMGRS_failure_sentinel
    (forward : ℚ → ℚ → ℕ → Option String) (lat lon : ℚ)
    (precision : ℕ) (formatted : Bool)
    (h : forward lon lat precision = none) :
    latLonToMGRS forward lat lon precision formatted = "Invalid" := by
  unfold latLonToMGRS
  rw [h]

/-- Witness for the amended C2 theorem at latitude 89. -/
theorem latLonToMGRS_failure_sentinel_witness :
    mgrsForward 0 89 5 = none ∧
    latLonToMGRS mgrsForward 89 0 5 false = "Invalid" :=
  ⟨by decide, latLonToMGRS_failure_sentinel mgrsForward 89 0 5 false (by decide)⟩

/-! ## Geometry measurement (real-number embedding) -/

/-- Embeds Math.atan2 on real inputs (the negative-zero distinction of
floating point does not exist on the reals). -/
noncomputable def atan2 (y x : ℝ) : ℝ :=
  if 0 < x then Real.arctan (y / x)
  else if x < 0 then
    (if 0 ≤ y then Real.arctan (y / x) + Real.pi
     else Real.arctan (y / x) - Real.pi)
  else if 0 < y then Real.pi / 2
  else if y < 0 then -(Real.pi / 2)
  else 0

/-- The intermediate value a of calculateDistance (haversine formula):
sin(dLat/2)^2 + cos(lat1 rad) * cos(lat2 rad) * sin(dLon/2)^2. -/
noncomputable def haversineA (lat1 lon1 lat2 lon2 : ℝ) : ℝ :=
  Real.sin ((lat2 - lat1) * Real.pi / 180 / 2) *
      Real.sin ((lat2 - lat1) * Real.pi / 180 / 2) +
    Real.cos (lat1 * Real.pi / 180) * Real.cos (lat2 * Real.pi / 180) *
      (Real.sin ((lon2 - lon1) * Real.pi / 180 / 2) *
        Real.sin ((lon2 - lon1) * Real.pi / 180 / 2))

/-- Embeds calculateDistance: R * c with R = 6371000 and
c = 2 * atan2(sqrt a, sqrt (1 - a)). -/
noncomputable def calculateDistance (lat1 lon1 lat2 lon2 : ℝ) : ℝ :=
  6371000 *
    (2 * atan2 (Real.sqrt (haversineA lat1 lon1 lat2 lon2))
      (Real.sqrt (1 - haversineA lat1 lon1 lat2 lon2)))

/-- Sum of f over consecutive pairs of a point list; embeds the JavaScript
loops over indices i and i+1 (real addition is associative and commutative,
so the grouping of the running sum is immaterial). -/
noncomputable def sumEdges (f : ℝ × ℝ → ℝ × ℝ → ℝ) : List (ℝ × ℝ) → ℝ
  | p :: q :: rest => f p q + sumEdges f (q :: rest)
  | _ => 0

/-- Embeds calculatePathDistance: 0 for fewer than 2 points, else the sum of
haversine distances over consecutive pairs. -/
noncomputable def calculatePathDistance (points : List (ℝ × ℝ)) : ℝ :=
  if points.length < 2 then 0
  else sumEdges (fun p q => calculateDistance p.1 p.2 q.1 q.2) points

/-- Embeds calculatePolygonPerimeter: 0 for fewer than 2 points; the sum of
consecutive edge distances, plus the closing edge only when more than 2
points are given. -/
noncomputable def calculatePolygonPerimeter (points : List (ℝ × ℝ)) : ℝ :=
  if points.length < 2 then 0
  else
    let base := sumEdges (fun p q => calculateDistance p.1 p.2 q.1 q.2) points
    if 2 < points.length then
      match points.getLast?, points.head? with
      | some l, some f => base + calculateDistance l.1 l.2 f.1 f.2
      | _, _ => base
    else base

/-! ## Claim C4: distance symmetry and the zero-iff-equal property -/

/-- The haversine intermediate value is symmetric in the two points. -/
theorem haversineA_comm (lat1 lon1 lat2 lon2 : ℝ) :
    haversineA lat1 lon1 lat2 lon2 = haversineA lat2 lon2 lat1 lon1 := by
  have key : ∀ u v : ℝ,
      Real.sin ((u - v) * Real.pi / 180 / 2) *
        Real.sin ((u - v) * Real.pi / 180 / 2) =
      Real.sin ((v - u) * Real.pi / 180 / 2) *
        Real.sin ((v - u) * Real.pi / 180 / 2) := by
    intro u v
    have h : (u - v) * Real.pi / 180 / 2 = -((v - u) * Real.pi / 180 / 2) := by
      ring
    rw [h, Real.sin_neg]
    ring
  unfold haversineA
  rw [key lat2 lat1, key lon2 lon1]
  ring

/-- atan2 of 0 and 1 is 0 (used to evaluate the haversine at coincident or
pole-degenerate inputs). -/
theorem atan2_zero_one : atan2 0 1 = 0 := by
  unfold atan2
  rw [if_pos (by norm_num : (0:ℝ) < 1)]
  rw [zero_div, Real.arctan_zero]

/-- If the haversine intermediate value is 0, the distance is 0. -/
theorem calculateDistance_of_haversineA_zero
    (lat1 lon1 lat2 lon2 : ℝ) (h : haversineA lat1 lon1 lat2 lon2 = 0) :
    calculateDistance lat1 lon1 lat2 lon2 = 0 := by
  unfold calculateDistance
  rw [h]
  rw [Real.sqrt_zero, sub_zero, Real.sqrt_one, atan2_zero_one]
  ring

/-- C4 (amended): calculateDistance is symmetric in its two points, and is 0
when the two points coincide; the converse fails (see the counterexample). -/
theorem calculateDistance_symm_and_refl :
    ∀ lat1 lon1 lat2 lon2 : ℝ,
      calculateDistance lat1 lon1 lat2 lon2 =
        calculateDistance lat2 lon2 lat1 lon1 ∧
      calculateDistance lat1 lon1 lat1 lon1 = 0 := by
  intro lat1 lon1 lat2 lon2
  constructor
  · unfold calculateDistance
    rw [haversineA_comm]
  · apply calculateDistance_of_haversineA_zero
    unfold haversineA
    have h1 : (lat1 - lat1) * Real.pi / 180 / 2 = 0 := by ring
    have h2 : (lon1 - lon1) * Real.pi / 180 / 2 = 0 := by ring
    rw [h1, h2, Real.sin_zero]
    ring

/-- C4 (counterexample): the two distinct points (90, 0) and (90, 90) at the
north pole have distance 0, so distance zero does not imply point equality. -/
theorem calculateDistance_zero_at_distinct_points :
    calculateDistance 90 0 90 90 = 0 ∧
    ((90 : ℝ), (0 : ℝ)) ≠ ((90 : ℝ), (90 : ℝ)) := by
  constructor
  · apply calculateDistance_of_haversineA_zero
    unfold haversineA
    have h1 : ((90 : ℝ) - 90) * Real.pi / 180 / 2 = 0 := by ring
    have h2 : (90 : ℝ) * Real.pi / 180 = Real.pi / 2 := by ring
    rw [h1, h2, Real.sin_zero, Real.cos_pi_div_two]
    ring
  · intro h
    have h2 : (0 : ℝ) = 90 := congrArg Prod.snd h
    norm_num at h2

/-! ## Claim C8: degenerate geometry returns zero -/

/-- Embeds the ring-closing step of calculatePolygonArea: append the first
point when the first and last points differ in either component. -/
noncomputable def closeRing (points : List (ℝ × ℝ)) : List (ℝ × ℝ) :=
  match points.head?, points.getLast? with
  | some f, some l =>
    if f.1 ≠ l.1 ∨ f.2 ≠ l.2 then points ++ [f] else points
  | _, _ => points

/-- The spherical-excess edge term of calculatePolygonArea:
(lon2 rad - lon1 rad) * (2 + sin(lat1 rad) + sin(lat2 rad)). -/
noncomputable def sphericalSum (closed : List (ℝ × ℝ)) : ℝ :=
  sumEdges (fun p1 p2 =>
    (p2.2 * Real.pi / 180 - p1.2 * Real.pi / 180) *
      (2 + Real.sin (p1.1 * Real.pi / 180) + Real.sin (p2.1 * Real.pi / 180)))
    closed

/-- The shoelace edge sum of the fallback branch of calculatePolygonArea:
sum of lon1 * lat2 - lon2 * lat1 over consecutive pairs. -/
noncomputable def shoelaceSum (closed : List (ℝ × ℝ)) : ℝ :=
  sumEdges (fun p1 p2 => p1.2 * p2.1 - p2.2 * p1.1) closed

/-- Sum of the latitudes of a point list (the reduce over closed). -/
def latSum (points : List (ℝ × ℝ)) : ℝ :=
  points.foldl (fun s p => s + p.1) 0

/-- The raw spherical-excess area of calculatePolygonArea:
abs(sum * R * R / 2) with R = 6371000. -/
noncomputable def sphericalAreaRaw (closed : List (ℝ × ℝ)) : ℝ :=
  |sphericalSum closed * 6371000 * 6371000 / 2|

/-- The planar fallback of calculatePolygonArea: shoelace area in square
degrees scaled by meters per degree of latitude and of longitude, the latter
evaluated at the average latitude that the code computes: the latitude sum of
the closed list (first vertex counted twice when the ring was auto-closed)
divided by the closed length minus 1. -/
noncomputable def planarFallbackArea (closed : List (ℝ × ℝ)) : ℝ :=
  (|shoelaceSum closed| / 2) * 111320 *
    (111320 *
      Real.cos (latSum closed / ((closed.length : ℝ) - 1) * Real.pi / 180))

/-- Embeds calculatePolygonArea: 0 for fewer than 3 points; otherwise the
spherical-excess area over the auto-closed ring, replaced by the planar
fallback when the raw result exceeds 1e12. -/
noncomputable def calculatePolygonArea (points : List (ℝ × ℝ)) : ℝ :=
  if points.length < 3 then 0
  else
    let closed := closeRing points
    let raw := sphericalAreaRaw closed
    if raw > 1e12 then planarFallbackArea closed else raw

/-- C8: degenerate inputs give defined zero results: a path of fewer than 2
points has length 0, a polygon of fewer than 3 points has area 0, and a
polygon of fewer than 2 points has perimeter 0. -/
theorem degenerate_geometry_zero :
    ∀ p q r : List (ℝ × ℝ), p.length < 2 → q.length < 3 → r.length < 2 →
      calculatePathDistance p = 0 ∧ calculatePolygonArea q = 0 ∧
        calculatePolygonPerimeter r = 0 := by
  intro p q r hp hq hr
  refine ⟨?_, ?_, ?_⟩
  · unfold calculatePathDistance
    rw [if_pos hp]
  · unfold calculatePolygonArea
    rw [if_pos hq]
  · unfold calculatePolygonPerimeter
    rw [if_pos hr]

/-- Witness for C8 at the empty path, a one-point polygon and the empty
perimeter input. -/
theorem degenerate_geometry_zero_witness :
    calculatePathDistance [] = 0 ∧
    calculatePolygonArea [((0 : ℝ), (0 : ℝ))] = 0 ∧
    calculatePolygonPerimeter [] = 0 :=
  degenerate_geometry_zero [] [((0 : ℝ), (0 : ℝ))] []
    (by norm_num) (by norm_num) (by norm_num)

/-! ## Claim C10: a 2-point polygon perimeter is the single edge distance -/

/-- C10: for exactly 2 points the perimeter is the single haversine edge
distance (no closing edge, not doubled), which also equals the open path
length of the same two points. -/
theorem perimeter_two_points :
    ∀ a b : ℝ × ℝ,
      calculatePolygonPerimeter [a, b] = calculateDistance a.1 a.2 b.1 b.2 ∧
      calculatePolygonPerimeter [a, b] = calculatePathDistance [a, b] := by
  intro a b
  have hlen : ([a, b] : List (ℝ × ℝ)).length = 2 := rfl
  have hperim : calculatePolygonPerimeter [a, b] =
      calculateDistance a.1 a.2 b.1 b.2 := by
    unfold calculatePolygonPerimeter
    rw [if_neg (by rw [hlen]; norm_num)]
    rw [if_neg (by rw [hlen]; norm_num)]
    show calculateDistance a.1 a.2 b.1 b.2 + 0 = _
    ring
  refine ⟨hperim, ?_⟩
  rw [hperim]
  unfold calculatePathDistance
  rw [if_neg (by rw [hlen]; norm_num)]
  show _ = calculateDistance a.1 a.2 b.1 b.2 + 0
  ring

/-! ## Claim C5: polygon area threshold structure and the fallback latitude -/

/-- The reading of the claim wording for the fallback branch: the planar
shoelace area scaled by meters per degree evaluated at the mean latitude of
the ring, i.e. the average of the latitudes of the given ring points. -/
noncomputable def polygonAreaClaimRead (points : List (ℝ × ℝ)) : ℝ :=
  if points.length < 3 then 0
  else
    let closed := closeRing points
    let raw := sphericalAreaRaw closed
    if raw > 1e12 then
      (|shoelaceSum closed| / 2) * 111320 *
        (111320 *
          Real.cos (latSum points / (points.length : ℝ) * Real.pi / 180))
    else raw

/-- A large spherical triangle with one vertex at the north pole, used to
drive calculatePolygonArea into its planar fallback branch. -/
def trianglePts : List (ℝ × ℝ) := [(90, 0), (0, 0), (0, 90)]

/-- The auto-closed version of the triangle. -/
def closedTriangle : List (ℝ × ℝ) := [(90, 0), (0, 0), (0, 90), (90, 0)]

theorem closeRing_triangle : closeRing trianglePts = closedTriangle := by
  have h : closeRing trianglePts =
      if ((90 : ℝ) ≠ 0 ∨ (0 : ℝ) ≠ 90) then trianglePts ++ [(90, 0)]
      else trianglePts := rfl
  rw [h, if_pos (Or.inl (by norm_num))]
  rfl

theorem sphericalSum_closedTriangle :
    sphericalSum closedTriangle = -(Real.pi / 2) := by
  have h0 : (0 : ℝ) * Real.pi / 180 = 0 := by ring
  have h90 : (90 : ℝ) * Real.pi / 180 = Real.pi / 2 := by ring
  simp only [closedTriangle, sphericalSum, sumEdges, h0, h90, Real.sin_zero,
    Real.sin_pi_div_two]
  ring

theorem sphericalAreaRaw_closedTriangle :
    sphericalAreaRaw closedTriangle = Real.pi * 10147410250000 := by
  unfold sphericalAreaRaw
  rw [sphericalSum_closedTriangle]
  have h : -(Real.pi / 2) * 6371000 * 6371000 / 2 =
      -(Real.pi * 10147410250000) := by ring
  rw [h, abs_neg, abs_of_pos (by positivity)]

theorem sphericalAreaRaw_closedTriangle_large :
    (1e12 : ℝ) < sphericalAreaRaw closedTriangle := by
  rw [sphericalAreaRaw_closedTriangle]
  nlinarith [Real.pi_gt_three]

theorem shoelaceSum_closedTriangle : shoelaceSum closedTriangle = 8100 := by
  simp only [closedTriangle, shoelaceSum, sumEdges]
  norm_num

theorem latSum_closedTriangle : latSum closedTriangle = 180 := by
  simp only [closedTriangle, latSum, List.foldl]
  norm_num

theorem planarFallbackArea_closedTriangle :
    planarFallbackArea closedTriangle = 4050 * 111320 * 55660 := by
  unfold planarFallbackArea
  rw [shoelaceSum_closedTriangle, latSum_closedTriangle]
  have hlen : ((closedTriangle.length : ℝ) - 1) = 3 := by
    norm_num [closedTriangle]
  rw [hlen]
  have harg : (180 : ℝ) / 3 * Real.pi / 180 = Real.pi / 3 := by ring
  rw [harg, Real.cos_pi_div_three]
  rw [abs_of_pos (by norm_num)]
  norm_num

/-- C5 (amended): for at least 3 points, calculatePolygonArea returns the
planar fallback exactly when the raw spherical-excess area exceeds 1e12, and
the raw spherical-excess area otherwise; the fallback scales the shoelace
area at the average latitude of the closed vertex list (first vertex counted
twice when auto-closed) divided by the edge count, not at the ring mean. -/
theorem polygonArea_threshold_structure :
    ∀ points : List (ℝ × ℝ), 3 ≤ points.length →
      ((1e12 : ℝ) < sphericalAreaRaw (closeRing points) →
        calculatePolygonArea points = planarFallbackArea (closeRing points)) ∧
      (¬ (1e12 : ℝ) < sphericalAreaRaw (closeRing points) →
        calculatePolygonArea points = sphericalAreaRaw (closeRing points)) := by
  intro points h
  have hne : ¬ points.length < 3 := by omega
  constructor
  · intro hc
    unfold calculatePolygonArea
    rw [if_neg hne]
    show (if sphericalAreaRaw (closeRing points) > 1e12 then
        planarFallbackArea (closeRing points)
      else sphericalAreaRaw (closeRing points)) = _
    rw [if_pos hc]
  · intro hc
    unfold calculatePolygonArea
    rw [if_neg hne]
    show (if sphericalAreaRaw (closeRing points) > 1e12 then
        planarFallbackArea (closeRing points)
      else sphericalAreaRaw (closeRing points)) = _
    rw [if_neg hc]

/-- Witness for the amended C5 theorem at the concrete triangle. -/
theorem polygonArea_threshold_structure_witness :
    ((1e12 : ℝ) < sphericalAreaRaw (closeRing trianglePts) →
      calculatePolygonArea trianglePts =
        planarFallbackArea (closeRing trianglePts)) ∧
    (¬ (1e12 : ℝ) < sphericalAreaRaw (closeRing trianglePts) →
      calculatePolygonArea trianglePts =
        sphericalAreaRaw (closeRing trianglePts)) :=
  polygonArea_threshold_structure trianglePts (by norm_num [trianglePts])

/-- C5 (counterexample): on the concrete triangle the fallback triggers, and
the code result differs from the claim reading (fallback scaled at the ring
mean latitude 30, where the code uses 60), so the claim as stated is false. -/
theorem polygonArea_fallback_latitude_counterexample :
    calculatePolygonArea trianglePts ≠ polygonAreaClaimRead trianglePts := by
  have hthr := sphericalAreaRaw_closedTriangle_large
  have hcode : calculatePolygonArea trianglePts = 4050 * 111320 * 55660 := by
    unfold calculatePolygonArea
    rw [if_neg (by norm_num [trianglePts])]
    show (if sphericalAreaRaw (closeRing trianglePts) > 1e12 then
        planarFallbackArea (closeRing trianglePts)
      else sphericalAreaRaw (closeRing trianglePts)) = _
    rw [closeRing_triangle, if_pos hthr, planarFallbackArea_closedTriangle]
  have hclaim : polygonAreaClaimRead trianglePts =
      4050 * 111320 * (111320 * (Real.sqrt 3 / 2)) := by
    unfold polygonAreaClaimRead
    rw [if_neg (by norm_num [trianglePts])]
    show (if sphericalAreaRaw (closeRing trianglePts) > 1e12 then
        (|shoelaceSum (closeRing trianglePts)| / 2) * 111320 *
          (111320 * Real.cos
            (latSum trianglePts / (trianglePts.length : ℝ) * Real.pi / 180))
      else sphericalAreaRaw (closeRing trianglePts)) = _
    rw [closeRing_triangle, if_pos hthr, shoelaceSum_closedTriangle]
    have hmean : latSum trianglePts / (trianglePts.length : ℝ) *
        Real.pi / 180 = Real.pi / 6 := by
      have hsum : latSum trianglePts = 90 := by
        simp only [trianglePts, latSum, List.foldl]
        norm_num
      rw [hsum]
      norm_num [trianglePts]
      ring
    rw [hmean, Real.cos_pi_div_six]
    rw [abs_of_pos (by norm_num)]
    norm_num
  rw [hcode, hclaim]
  have h3 : (1 : ℝ) < Real.sqrt 3 := by
    rw [Real.lt_sqrt (by norm_num)]
    norm_num
  intro heq
  nlinarith [h3]

/-! ## Claim C6: raytrace sector classification (LineOfSight component) -/

/-- The fixed raytrace radius of the LineOfSight component (1 km). -/
def RADIUS : ℝ := 1000

/-- Embeds the expression ray.first_obstruction || RADIUS of
visualizeRaytrace: a missing first obstruction is embedded as none; the
JavaScript or-operator also replaces a (falsy) zero distance by the radius. -/
noncomputable def obstructionDist (o : Option ℝ) : ℝ :=
  match o with
  | none => RADIUS
  | some d => if d = 0 then RADIUS else d

/-- Embeds the sector classification of visualizeRaytrace:
isVisible = avgObstruction > RADIUS * 0.5. -/
noncomputable def sectorIsVisible (r1 r2 : Option ℝ) : Prop :=
  (obstructionDist r1 + obstructionDist r2) / 2 > RADIUS * 0.5

/-- The claim reading of the obstruction distance: the recorded distance,
with the full radius only for a ray with no obstruction. -/
noncomputable def claimObstructionDist (o : Option ℝ) : ℝ :=
  o.getD RADIUS

/-- C6: for rays whose recorded first-obstruction distances are positive (as
the spec-modelled backend samples are, being positive distances along the
ray), a sector is classified visible exactly when the average of the two
first-obstruction distances, taking the full radius for an unobstructed ray,
exceeds half the radius. -/
theorem sector_visible_iff :
    ∀ r1 r2 : Option ℝ,
      (∀ d, r1 = some d → 0 < d) → (∀ d, r2 = some d → 0 < d) →
      (sectorIsVisible r1 r2 ↔
        (claimObstructionDist r1 + claimObstructionDist r2) / 2 >
          RADIUS / 2) := by
  intro r1 r2 h1 h2
  have key : ∀ r : Option ℝ, (∀ d, r = some d → 0 < d) →
      obstructionDist r = claimObstructionDist r := by
    intro r h
    cases r with
    | none => rfl
    | some d =>
      have hd : 0 < d := h d rfl
      show (if d = 0 then RADIUS else d) = (some d).getD RADIUS
      rw [if_neg hd.ne']
      rfl
  unfold sectorIsVisible
  rw [key r1 h1, key r2 h2]
  have hhalf : RADIUS * 0.5 = RADIUS / 2 := by ring
  rw [hhalf]

/-- Witness for C6 with an unobstructed ray and a ray obstructed at 300 m. -/
theorem sector_visible_iff_witness :
    sectorIsVisible none (some 300) ↔
      (claimObstructionDist none + claimObstructionDist (some 300)) / 2 >
        RADIUS / 2 :=
  sector_visible_iff none (some 300)
    (fun _ h => Option.noConfusion h)
    (fun d h => by
      have hd : (300 : ℝ) = d := by injection h
      rw [← hd]
      norm_num)

/-! ## Claim C9: bearing range and coincident points -/

/-- Truncation toward zero, as JavaScript coerces for the remainder
operator. -/
noncomputable def jsTrunc (z : ℝ) : ℤ :=
  if 0 ≤ z then ⌊z⌋ else ⌈z⌉

/-- The JavaScript remainder operator on real inputs:
a % b = a - b * trunc(a / b). -/
noncomputable def jsMod (a b : ℝ) : ℝ :=
  a - b * (jsTrunc (a / b) : ℝ)

/-- The y intermediate of calculateBearing:
sin(dLon) * cos(lat2 rad). -/
noncomputable def bearingY (lon1 lat2 lon2 : ℝ) : ℝ :=
  Real.sin ((lon2 - lon1) * Real.pi / 180) * Real.cos (lat2 * Real.pi / 180)

/-- The x intermediate of calculateBearing:
cos(lat1 rad) * sin(lat2 rad) - sin(lat1 rad) * cos(lat2 rad) * cos(dLon). -/
noncomputable def bearingX (lat1 lon1 lat2 lon2 : ℝ) : ℝ :=
  Real.cos (lat1 * Real.pi / 180) * Real.sin (lat2 * Real.pi / 180) -
    Real.sin (lat1 * Real.pi / 180) * Real.cos (lat2 * Real.pi / 180) *
      Real.cos ((lon2 - lon1) * Real.pi / 180)

/-- Embeds calculateBearing: (atan2(y, x) * 180 / pi + 360) % 360. -/
noncomputable def calculateBearing (lat1 lon1 lat2 lon2 : ℝ) : ℝ :=
  jsMod (atan2 (bearingY lon1 lat2 lon2) (bearingX lat1 lon1 lat2 lon2) *
    180 / Real.pi + 360) 360

/-- atan2 always lies in the interval (-pi, pi]. -/
theorem atan2_bounds (y x : ℝ) :
    -Real.pi < atan2 y x ∧ atan2 y x ≤ Real.pi := by
  have hpi := Real.pi_pos
  unfold atan2
  split_ifs with h1 h2 h3 h4 h5
  · exact ⟨by nlinarith [Real.neg_pi_div_two_lt_arctan (y / x)],
      by nlinarith [Real.arctan_lt_pi_div_two (y / x)]⟩
  · constructor
    · nlinarith [Real.neg_pi_div_two_lt_arctan (y / x)]
    · have hyx : y / x ≤ 0 :=
        div_nonpos_iff.mpr (Or.inl ⟨h3, h2.le⟩)
      have harct : Real.arctan (y / x) ≤ 0 := by
        have := Real.arctan_strictMono.monotone hyx
        rwa [Real.arctan_zero] at this
      linarith
  · constructor
    · have hyx : 0 < y / x :=
        div_pos_iff.mpr (Or.inr ⟨lt_of_not_le h3, h2⟩)
      have harct : 0 < Real.arctan (y / x) := by
        have := Real.arctan_strictMono hyx
        rwa [Real.arctan_zero] at this
      linarith
    · nlinarith [Real.arctan_lt_pi_div_two (y / x)]
  · exact ⟨by linarith, by linarith⟩
  · exact ⟨by linarith, by linarith⟩
  · exact ⟨by linarith, by linarith⟩

/-- The JavaScript remainder of a nonnegative dividend by a positive divisor
lies in [0, divisor). -/
theorem jsMod_bounds (a b : ℝ) (ha : 0 ≤ a) (hb : 0 < b) :
    0 ≤ jsMod a b ∧ jsMod a b < b := by
  unfold jsMod jsTrunc
  rw [if_pos (div_nonneg ha hb.le)]
  have hfr : a - b * ((⌊a / b⌋ : ℤ) : ℝ) = b * Int.fract (a / b) := by
    rw [Int.fract]
    field_simp
  rw [hfr]
  constructor
  · exact mul_nonneg hb.le (Int.fract_nonneg _)
  · calc b * Int.fract (a / b) < b * 1 :=
        mul_lt_mul_of_pos_left (Int.fract_lt_one _) hb
      _ = b := mul_one b

/-- C9: calculateBearing always returns a value in [0, 360), and returns 0
when the two points coincide. -/
theorem calculateBearing_range_and_coincident :
    ∀ lat1 lon1 lat2 lon2 : ℝ,
      (0 ≤ calculateBearing lat1 lon1 lat2 lon2 ∧
        calculateBearing lat1 lon1 lat2 lon2 < 360) ∧
      (lat1 = lat2 → lon1 = lon2 →
        calculateBearing lat1 lon1 lat2 lon2 = 0) := by
  intro lat1 lon1 lat2 lon2
  constructor
  · have hpi := Real.pi_pos
    obtain ⟨hl, _⟩ :=
      atan2_bounds (bearingY lon1 lat2 lon2) (bearingX lat1 lon1 lat2 lon2)
    unfold calculateBearing
    apply jsMod_bounds
    · have hd : -180 <
          atan2 (bearingY lon1 lat2 lon2) (bearingX lat1 lon1 lat2 lon2) *
            180 / Real.pi := by
        rw [lt_div_iff₀ hpi]
        nlinarith
      linarith
    · norm_num
  · intro h1 h2
    rw [h1, h2]
    unfold calculateBearing bearingY bearingX
    have hz : (lon2 - lon2) * Real.pi / 180 = 0 := by ring
    rw [hz, Real.sin_zero, Real.cos_zero, zero_mul]
    have hx : Real.cos (lat2 * Real.pi / 180) * Real.sin (lat2 * Real.pi / 180) -
        Real.sin (lat2 * Real.pi / 180) * Real.cos (lat2 * Real.pi / 180) * 1 =
          0 := by ring
    rw [hx]
    have ha : atan2 0 0 = 0 := by
      unfold atan2
      rw [if_neg (lt_irrefl (0 : ℝ)), if_neg (lt_irrefl (0 : ℝ)),
        if_neg (lt_irrefl (0 : ℝ)), if_neg (lt_irrefl (0 : ℝ))]
    rw [ha, zero_mul, zero_div, zero_add]
    unfold jsMod jsTrunc
    rw [div_self (by norm_num : (360 : ℝ) ≠ 0),
      if_pos (by norm_num : (0 : ℝ) ≤ 1), Int.floor_one]
    norm_num

/-- Witness for C9 at two coincident points at the origin. -/
theorem calculateBearing_range_and_coincident_witness :
    0 ≤ calculateBearing 0 0 0 0 ∧ calculateBearing 0 0 0 0 < 360 ∧
      calculateBearing 0 0 0 0 = 0 :=
  ⟨(calculateBearing_range_and_coincident 0 0 0 0).1.1,
   (calculateBearing_range_and_coincident 0 0 0 0).1.2,
   (calculateBearing_range_and_coincident 0 0 0 0).2 rfl rfl⟩
